import Mathlib

/-!
Verification of the ECI-to-ECEF conversion program (`eci_to_ecef.py`).

The program is a three-stage pure pipeline: calendar date to Julian Date,
Julian Date to Greenwich Sidereal Time (GST) in radians, and a Z-axis
rotation of an ECI position vector into the ECEF frame.  Python floats are
modelled as exact rationals (for the closed-form rational arithmetic) and
as real numbers (once trigonometric functions and pi enter); Python integer
operations are modelled on mathematical integers with their exact Python
semantics (`//` is floor division, `int()` truncates toward zero, `%` on
floats yields a result with the sign of the divisor).
-/

namespace EciToEcef

/-- Python integer floor division `a // b`. -/
def pyIntDiv (a b : ℤ) : ℤ := Int.fdiv a b

/-- Python builtin `int(q)` applied to a float value: truncation toward zero. -/
def pyInt (q : ℚ) : ℤ := if 0 ≤ q then ⌊q⌋ else ⌈q⌉

/-- Python float modulo `x % y`: for a positive divisor the result is
nonnegative and smaller than the divisor. -/
def pyMod (x y : ℚ) : ℚ := x - y * ⌊x / y⌋

/-- Embedding of `ymdhms_to_julian_date` from `src/eci_to_ecef.py`,
floats modelled as exact rationals. -/
def ymdhms_to_julian_date (year month day hour minute : ℤ) (second : ℚ) : ℚ :=
  let y : ℤ := if month ≤ 2 then year - 1 else year
  let m : ℤ := if month ≤ 2 then month + 12 else month
  let A : ℤ := pyIntDiv y 100
  let B : ℤ := 2 - A + pyIntDiv A 4
  let jd_int : ℚ := (pyInt ((365.25 : ℚ) * ((y : ℚ) + 4716)) : ℚ) +
    (pyInt ((30.6001 : ℚ) * ((m : ℚ) + 1)) : ℚ) + (day : ℚ) + (B : ℚ) - 1524.5
  let frac_day : ℚ := ((hour : ℚ) + (minute : ℚ) / 60.0 + second / 3600.0) / 24.0
  jd_int + frac_day

/-- Embedding of the `GST_sec` intermediate of `gst_from_julian_date`. -/
def gstSeconds (julian_date : ℚ) : ℚ :=
  let T : ℚ := (julian_date - 2451545.0) / 36525.0
  (280.46061837 + 360.98564736629 * (julian_date - 2451545.0) +
    T * T * (0.000387933 - T / 38710000)) * 3600

/-- Embedding of the `GST_hours` intermediate of `gst_from_julian_date`:
`(GST_sec / 3600) % 24` with Python float modulo. -/
def gstHours (julian_date : ℚ) : ℚ := pyMod (gstSeconds julian_date / 3600) 24

/-- Python `math.radians`: degrees to radians. -/
noncomputable def radians (x : ℝ) : ℝ := x * (Real.pi / 180)

/-- Embedding of `gst_from_julian_date` from `src/eci_to_ecef.py`. -/
noncomputable def gst_from_julian_date (julian_date : ℚ) : ℝ :=
  radians ((gstHours julian_date : ℝ) * 15) - 1.02581572

/-- Embedding of `eci_to_ecef` from `src/eci_to_ecef.py`. -/
noncomputable def eci_to_ecef (eci_x_km eci_y_km eci_z_km : ℝ) (gst_rad : ℝ) :
    ℝ × ℝ × ℝ :=
  (Real.cos gst_rad * eci_x_km + Real.sin gst_rad * eci_y_km,
   -Real.sin gst_rad * eci_x_km + Real.cos gst_rad * eci_y_km,
   eci_z_km)

/-- The composed numeric pipeline of `main`: timestamp and ECI vector in,
ECEF vector out. -/
noncomputable def pipeline (year month day hour minute : ℤ) (second : ℚ)
    (eci_x_km eci_y_km eci_z_km : ℝ) : ℝ × ℝ × ℝ :=
  eci_to_ecef eci_x_km eci_y_km eci_z_km
    (gst_from_julian_date (ymdhms_to_julian_date year month day hour minute second))

/-- The usage string printed by `main` on a wrong argument count. -/
def usageMsg : String :=
  "Usage: python3 eci_to_ecef.py year month day hour minute second eci_x_km eci_y_km eci_z_km"

/-- Observable outcome of one program run: the usage message printed to
standard output together with the exit status, an uncaught parse failure,
or the three printed ECEF coordinates. -/
inductive ProgResult where
  | usage (stdoutMsg : String) (exitCode : ℕ)
  | parseFailure
  | output (ecef_x_km ecef_y_km ecef_z_km : ℝ)

/-- Embedding of `main` from `src/eci_to_ecef.py`.  `argv` is `sys.argv`
(program name included).  The Python runtime conversions `int(...)` and
`float(...)` on strings are taken as uninterpreted parameters `pI` and `pF`;
a failed conversion raises, which surfaces as `ProgResult.parseFailure`. -/
noncomputable def main (pI : String → Option ℤ) (pF : String → Option ℚ)
    (argv : List String) : ProgResult :=
  if argv.length ≠ 10 then
    ProgResult.usage usageMsg 1
  else
    match pI (argv.getD 1 ""), pI (argv.getD 2 ""), pI (argv.getD 3 ""),
      pI (argv.getD 4 ""), pI (argv.getD 5 ""), pF (argv.getD 6 ""),
      pF (argv.getD 7 ""), pF (argv.getD 8 ""), pF (argv.getD 9 "") with
    | some year, some month, some day, some hour, some minute, some second,
      some ex, some ey, some ez =>
      match pipeline year month day hour minute second (ex : ℝ) (ey : ℝ) (ez : ℝ) with
      | (x, y, z) => ProgResult.output x y z
    | _, _, _, _, _, _, _, _, _ => ProgResult.parseFailure

/-- The Julian-Date formula exactly as claim C2 words it: `A` and `B` computed
with truncating (toward-zero) integer division, mathematical floor on the
`365.25` and `30.6001` products. -/
def julianDateMeeusTrunc (year month day hour minute : ℤ) (second : ℚ) : ℚ :=
  let y : ℤ := if month ≤ 2 then year - 1 else year
  let m : ℤ := if month ≤ 2 then month + 12 else month
  let A : ℤ := Int.tdiv y 100
  let B : ℤ := 2 - A + Int.tdiv A 4
  (⌊(365.25 : ℚ) * ((y : ℚ) + 4716)⌋ : ℚ) + (⌊(30.6001 : ℚ) * ((m : ℚ) + 1)⌋ : ℚ) +
    (day : ℚ) + (B : ℚ) - 1524.5 + ((hour : ℚ) + (minute : ℚ) / 60 + second / 3600) / 24

/-- `GST_hours` lies in `[0, 24)` — shared bound for the sidereal-time claims. -/
lemma gstHours_mem (jd : ℚ) : 0 ≤ gstHours jd ∧ gstHours jd < 24 := by
  unfold gstHours pyMod
  refine ⟨?_, ?_⟩
  · have h := Int.sub_floor_div_mul_nonneg (gstSeconds jd / 3600)
      (show (0 : ℚ) < 24 by norm_num)
    linarith
  · have h := Int.sub_floor_div_mul_lt (gstSeconds jd / 3600)
      (show (0 : ℚ) < 24 by norm_num)
    linarith

/-- C1: `eci_to_ecef` returns exactly the passive Z-axis rotation
`(cos θ·x + sin θ·y, -sin θ·x + cos θ·y, z)` of its input vector. -/
theorem eci_to_ecef_is_z_rotation (x y z θ : ℝ) :
    eci_to_ecef x y z θ =
      (Real.cos θ * x + Real.sin θ * y, -Real.sin θ * x + Real.cos θ * y, z) := rfl

/-- C5: the ECEF z-component produced by the pipeline equals the ECI
z-component exactly, for every timestamp and every input vector. -/
theorem pipeline_z_invariant (year month day hour minute : ℤ) (second : ℚ)
    (ex ey ez : ℝ) :
    (pipeline year month day hour minute second ex ey ez).2.2 = ez := rfl

/-- C6: the rotation preserves the squared norm in the equatorial plane:
`ecef_x² + ecef_y² = eci_x² + eci_y²` exactly over the reals. -/
theorem rotation_preserves_xy_norm (x y z θ : ℝ) :
    (eci_to_ecef x y z θ).1 ^ 2 + (eci_to_ecef x y z θ).2.1 ^ 2 = x ^ 2 + y ^ 2 := by
  have h := Real.sin_sq_add_cos_sq θ
  simp only [eci_to_ecef]
  linear_combination (x ^ 2 + y ^ 2) * h

/-- C8: the calendar-to-Julian-Date converter maps 2024-01-01 00:00:00
to exactly 2460310.5. -/
theorem julian_date_2024_01_01 :
    ymdhms_to_julian_date 2024 1 1 0 0 0 = 2460310.5 := by
  have h1 : pyIntDiv 2023 100 = 20 := by decide
  have h2 : pyIntDiv 20 4 = 5 := by decide
  norm_num [ymdhms_to_julian_date, pyInt, h1, h2]

/-- Python `int()` truncation coincides with the floor on nonnegative values. -/
lemma pyInt_eq_floor {q : ℚ} (h : 0 ≤ q) : pyInt q = ⌊q⌋ := if_pos h

/-- For nonnegative dividends the two Meeus division readings agree:
Python floor division equals truncating division, on `· // 100` and the
following `· // 4`. -/
lemma fdiv_tdiv_agree (y : ℤ) (h : 0 ≤ y) :
    Int.fdiv y 100 = Int.tdiv y 100 ∧
      Int.fdiv (Int.fdiv y 100) 4 = Int.tdiv (Int.tdiv y 100) 4 := by
  have hA : Int.fdiv y 100 = Int.tdiv y 100 := by
    rw [Int.fdiv_eq_ediv _ (by norm_num), Int.tdiv_eq_ediv h (by norm_num)]
  have hA0 : 0 ≤ Int.fdiv y 100 := Int.fdiv_nonneg h (by norm_num)
  refine ⟨hA, ?_⟩
  rw [← hA, Int.fdiv_eq_ediv _ (by norm_num), Int.tdiv_eq_ediv hA0 (by norm_num)]

/-- C2 counterexample: at year -100, month 3, day 1, midnight, the code's
floor division gives a Julian Date one day smaller than the claim's
truncating-division formula (`(-1) // 4 = -1` in Python but `-1` truncated
by `4` is `0`). -/
theorem julian_date_trunc_counterexample :
    ymdhms_to_julian_date (-100) 3 1 0 0 0 ≠ julianDateMeeusTrunc (-100) 3 1 0 0 0 := by
  have h1 : pyIntDiv (-100) 100 = -1 := by decide
  have h2 : pyIntDiv (-1) 4 = -1 := by decide
  have h3 : Int.tdiv (-100) 100 = -1 := by decide
  have h4 : Int.tdiv (-1) 4 = 0 := by decide
  norm_num [ymdhms_to_julian_date, julianDateMeeusTrunc, pyInt, h1, h2, h3, h4]

/-- C2 (amended): for Gregorian dates after 1582 (year ≥ 1583, month in
1..12) — the domain the spec names for the Meeus algorithm — the converter
returns exactly the Meeus value of the claim's formula: there all divisions
act on nonnegative values, so floor and truncation coincide. -/
theorem ymdhms_meeus_post1582 (year month day hour minute : ℤ) (second : ℚ)
    (hy : 1583 ≤ year) (hm1 : 1 ≤ month) (hm2 : month ≤ 12) :
    ymdhms_to_julian_date year month day hour minute second =
      julianDateMeeusTrunc year month day hour minute second := by
  by_cases hmle : month ≤ 2
  · simp only [ymdhms_to_julian_date, julianDateMeeusTrunc, pyIntDiv, if_pos hmle]
    obtain ⟨hA, hA4⟩ := fdiv_tdiv_agree (year - 1) (by omega)
    have hc : (1582 : ℚ) ≤ ((year - 1 : ℤ) : ℚ) := by
      exact_mod_cast (by omega : (1582 : ℤ) ≤ year - 1)
    have hm : (13 : ℚ) ≤ ((month + 12 : ℤ) : ℚ) := by
      exact_mod_cast (by omega : (13 : ℤ) ≤ month + 12)
    have h365 : (0 : ℚ) ≤ (365.25 : ℚ) * (((year - 1 : ℤ) : ℚ) + 4716) := by
      have : (0 : ℚ) ≤ ((year - 1 : ℤ) : ℚ) + 4716 := by linarith
      exact mul_nonneg (by norm_num) this
    have h306 : (0 : ℚ) ≤ (30.6001 : ℚ) * (((month + 12 : ℤ) : ℚ) + 1) := by
      have : (0 : ℚ) ≤ ((month + 12 : ℤ) : ℚ) + 1 := by linarith
      exact mul_nonneg (by norm_num) this
    rw [pyInt_eq_floor h365, pyInt_eq_floor h306, hA4, hA]
    norm_num
  · simp only [ymdhms_to_julian_date, julianDateMeeusTrunc, pyIntDiv, if_neg hmle]
    obtain ⟨hA, hA4⟩ := fdiv_tdiv_agree year (by omega)
    have hc : (1583 : ℚ) ≤ ((year : ℤ) : ℚ) := by exact_mod_cast hy
    have hm : (3 : ℚ) ≤ ((month : ℤ) : ℚ) := by
      exact_mod_cast (by omega : (3 : ℤ) ≤ month)
    have h365 : (0 : ℚ) ≤ (365.25 : ℚ) * (((year : ℤ) : ℚ) + 4716) := by
      have : (0 : ℚ) ≤ ((year : ℤ) : ℚ) + 4716 := by linarith
      exact mul_nonneg (by norm_num) this
    have h306 : (0 : ℚ) ≤ (30.6001 : ℚ) * (((month : ℤ) : ℚ) + 1) := by
      have : (0 : ℚ) ≤ ((month : ℤ) : ℚ) + 1 := by linarith
      exact mul_nonneg (by norm_num) this
    rw [pyInt_eq_floor h365, pyInt_eq_floor h306, hA4, hA]
    norm_num

/-- C2 witness: the amended theorem applied at 2024-01-01 00:00:00. -/
theorem ymdhms_meeus_post1582_witness :
    (1583 : ℤ) ≤ 2024 ∧ (1 : ℤ) ≤ 1 ∧ (1 : ℤ) ≤ 12 ∧
      ymdhms_to_julian_date 2024 1 1 0 0 0 = julianDateMeeusTrunc 2024 1 1 0 0 0 :=
  ⟨by norm_num, by norm_num, by norm_num,
   ymdhms_meeus_post1582 2024 1 1 0 0 0 (by norm_num) (by norm_num) (by norm_num)⟩

/-- C3: the sidereal-time calculator returns
`radians(GST_hours·15) - 1.02581572` with
`GST_hours = (GST_seconds/3600) mod 24` and `GST_seconds` the stated cubic
polynomial in `JD`, and applies no further range reduction. -/
theorem gst_closed_form (jd : ℚ) :
    gst_from_julian_date jd =
      radians ((pyMod (((280.46061837 + 360.98564736629 * (jd - 2451545.0) +
          ((jd - 2451545.0) / 36525.0) ^ 2 *
            (0.000387933 - ((jd - 2451545.0) / 36525.0) / 38710000)) * 3600) / 3600)
        24 : ℚ) * 15) - 1.02581572 := by
  have h : gstSeconds jd =
      (280.46061837 + 360.98564736629 * (jd - 2451545.0) +
        ((jd - 2451545.0) / 36525.0) ^ 2 *
          (0.000387933 - ((jd - 2451545.0) / 36525.0) / 38710000)) * 3600 := by
    unfold gstSeconds
    ring
  unfold gst_from_julian_date gstHours
  rw [h]

/-- C4: the mod-24 reduction in the sidereal-time calculator is a true
(non-negative-result) modulo, so `GST_hours` lies in `[0, 24)` for every
Julian Date, including dates before the J2000 epoch where `GST_seconds`
is negative. -/
theorem gstHours_in_Ico (jd : ℚ) : 0 ≤ gstHours jd ∧ gstHours jd < 24 :=
  gstHours_mem jd

/-- C10: the returned sidereal angle always lies in
`[-1.02581572, 2π - 1.02581572)`, because the mod-24 reduction confines
`radians(GST_hours·15)` to `[0, 2π)` before the constant bias is
subtracted. -/
theorem gst_angle_bounds (jd : ℚ) :
    -1.02581572 ≤ gst_from_julian_date jd ∧
      gst_from_julian_date jd < 2 * Real.pi - 1.02581572 := by
  obtain ⟨h0, h24⟩ := gstHours_mem jd
  have c0 : (0 : ℝ) ≤ (gstHours jd : ℝ) := by exact_mod_cast h0
  have c24 : (gstHours jd : ℝ) < 24 := by exact_mod_cast h24
  have hπ := Real.pi_pos
  unfold gst_from_julian_date radians
  constructor
  · nlinarith [mul_nonneg c0 hπ.le]
  · nlinarith [mul_lt_mul_of_pos_right c24 hπ]

/-- C7: with any argument count other than ten strings in `sys.argv`
(nine positional arguments), `main` prints the usage message to standard
output and exits with status 1, regardless of the argument contents and
without entering any numeric stage. -/
theorem wrong_arg_count_usage (pI : String → Option ℤ) (pF : String → Option ℚ)
    (argv : List String) (h : argv.length ≠ 10) :
    main pI pF argv = ProgResult.usage usageMsg 1 := by
  unfold main
  rw [if_pos h]

/-- C7 witness: eight positional arguments (nine strings in `sys.argv`)
hit the usage branch. -/
theorem wrong_arg_count_usage_witness :
    (["prog", "2024", "1", "1", "0", "0", "0", "7000", "0"] : List String).length ≠ 10 ∧
      main (fun _ => none) (fun _ => none)
        ["prog", "2024", "1", "1", "0", "0", "0", "7000", "0"] =
        ProgResult.usage usageMsg 1 :=
  ⟨by decide,
   wrong_arg_count_usage (fun _ => none) (fun _ => none)
     ["prog", "2024", "1", "1", "0", "0", "0", "7000", "0"] (by decide)⟩

/-- C9: the pipeline is deterministic and its stages are pure: a run of
`main` on equal argument lists gives equal results, and each helper applied
twice to identical inputs returns identical values (the embedding is a pure
function of its arguments, so no state can change between calls). -/
theorem pipeline_deterministic (pI : String → Option ℤ) (pF : String → Option ℚ)
    (a b : List String) (h : a = b) :
    main pI pF a = main pI pF b ∧
      (∀ (y mo d hh mi : ℤ) (s : ℚ),
        ymdhms_to_julian_date y mo d hh mi s = ymdhms_to_julian_date y mo d hh mi s) ∧
      (∀ jd : ℚ, gst_from_julian_date jd = gst_from_julian_date jd) ∧
      (∀ x y z g : ℝ, eci_to_ecef x y z g = eci_to_ecef x y z g) := by
  subst h
  exact ⟨rfl, fun _ _ _ _ _ _ => rfl, fun _ => rfl, fun _ _ _ _ => rfl⟩

/-- C9 witness: two invocations with an identical concrete argument list. -/
theorem pipeline_deterministic_witness :
    main (fun _ => none) (fun _ => none) ["prog", "2024"] =
      main (fun _ => none) (fun _ => none) ["prog", "2024"] ∧
      (∀ (y mo d hh mi : ℤ) (s : ℚ),
        ymdhms_to_julian_date y mo d hh mi s = ymdhms_to_julian_date y mo d hh mi s) ∧
      (∀ jd : ℚ, gst_from_julian_date jd = gst_from_julian_date jd) ∧
      (∀ x y z g : ℝ, eci_to_ecef x y z g = eci_to_ecef x y z g) :=
  pipeline_deterministic (fun _ => none) (fun _ => none)
    ["prog", "2024"] ["prog", "2024"] rfl

end EciToEcef
